import Mathlib

set_option maxHeartbeats 1000000
set_option maxRecDepth 4000

/-- The left-brace character (written with an escape so that JSON sample text
stays readable in string literals throughout this development). -/
def lbrace : Char := '\x7b'

/-- The right-brace character. -/
def rbrace : Char := '\x7d'

/-- Dynamic JSON values as produced by Python's `json.loads`.  Numbers are kept
as their source lexemes (the program never does arithmetic on decoded numbers,
so a float semantics is not needed); `null` doubles as Python's `None`.
Objects keep their members in source order, mirroring Python dict insertion
order (the inputs of interest have distinct keys). -/
inductive Json where
  | null : Json
  | bool : Bool → Json
  | num : List Char → Json
  | str : List Char → Json
  | arr : List Json → Json
  | obj : List (List Char × Json) → Json

/-- JSON whitespace accepted by Python's decoder: space, tab, newline, CR. -/
def isJsonWs (c : Char) : Bool :=
  c = ' ' || c = '\t' || c = '\n' || c = '\r'

/-- Drop leading JSON whitespace. -/
def skipWs : List Char → List Char
  | [] => []
  | c :: cs => if isJsonWs c then skipWs cs else c :: cs

/-- Value of one hex digit, if the character is one. -/
def hexVal (c : Char) : Option Nat :=
  if '0' ≤ c ∧ c ≤ '9' then some (c.toNat - '0'.toNat)
  else if 'a' ≤ c ∧ c ≤ 'f' then some (c.toNat - 'a'.toNat + 10)
  else if 'A' ≤ c ∧ c ≤ 'F' then some (c.toNat - 'A'.toNat + 10)
  else none

/-- Parse the body of a JSON string (the opening quote already consumed), up to
and including the closing quote.  Returns the decoded characters and the rest
of the input.  Follows Python's strict decoder: the escapes are
`\" \\ \/ \b \f \n \r \t \uXXXX`, and raw control characters below 0x20 are
rejected. -/
def parseStringBody : List Char → Option (List Char × List Char)
  | [] => none
  | '"' :: rest => some ([], rest)
  | '\\' :: '"' :: r => (parseStringBody r).map (fun p => ('"' :: p.1, p.2))
  | '\\' :: '\\' :: r => (parseStringBody r).map (fun p => ('\\' :: p.1, p.2))
  | '\\' :: '/' :: r => (parseStringBody r).map (fun p => ('/' :: p.1, p.2))
  | '\\' :: 'b' :: r => (parseStringBody r).map (fun p => (Char.ofNat 8 :: p.1, p.2))
  | '\\' :: 'f' :: r => (parseStringBody r).map (fun p => (Char.ofNat 12 :: p.1, p.2))
  | '\\' :: 'n' :: r => (parseStringBody r).map (fun p => ('\n' :: p.1, p.2))
  | '\\' :: 'r' :: r => (parseStringBody r).map (fun p => ('\r' :: p.1, p.2))
  | '\\' :: 't' :: r => (parseStringBody r).map (fun p => ('\t' :: p.1, p.2))
  | '\\' :: 'u' :: h1 :: h2 :: h3 :: h4 :: r =>
    match hexVal h1, hexVal h2, hexVal h3, hexVal h4 with
    | some a, some b, some c, some d =>
      (parseStringBody r).map
        (fun p => (Char.ofNat (((a * 16 + b) * 16 + c) * 16 + d) :: p.1, p.2))
    | _, _, _, _ => none
  | '\\' :: _ => none
  | c :: rest =>
    if c.toNat < 32 then none
    else (parseStringBody rest).map (fun p => (c :: p.1, p.2))

/-- Take the longest prefix of decimal digits. -/
def takeDigits : List Char → List Char × List Char
  | [] => ([], [])
  | c :: r =>
    if c.isDigit then
      let p := takeDigits r
      (c :: p.1, p.2)
    else ([], c :: r)

/-- Integer part of the JSON number grammar: `0` alone, or a nonzero digit
followed by more digits (mirrors Python's `(?:0|[1-9]\d*)`). -/
def parseIntPart : List Char → Option (List Char × List Char)
  | [] => none
  | c :: r =>
    if c = '0' then some (['0'], r)
    else if c.isDigit then
      let p := takeDigits r
      some (c :: p.1, p.2)
    else none

/-- Optional fraction part `(\.\d+)?`; consumed only when complete. -/
def parseFracPart (l : List Char) : List Char × List Char :=
  match l with
  | '.' :: r =>
    let p := takeDigits r
    if p.1 = [] then ([], '.' :: r) else ('.' :: p.1, p.2)
  | _ => ([], l)

/-- Optional exponent part `([eE][-+]?\d+)?`; consumed only when complete. -/
def parseExpPart (l : List Char) : List Char × List Char :=
  match l with
  | e :: r =>
    if e = 'e' ∨ e = 'E' then
      match r with
      | s :: r2 =>
        if s = '+' ∨ s = '-' then
          let p := takeDigits r2
          if p.1 = [] then ([], l) else (e :: s :: p.1, p.2)
        else
          let p := takeDigits r
          if p.1 = [] then ([], l) else (e :: p.1, p.2)
      | [] => ([], l)
    else ([], l)
  | [] => ([], l)

/-- Match Python's number regex at the head of the input, returning the lexeme
and the rest. -/
def parseNumber (l : List Char) : Option (List Char × List Char) :=
  match l with
  | '-' :: r =>
    match parseIntPart r with
    | none => none
    | some (ip, r1) =>
      let f := parseFracPart r1
      let e := parseExpPart f.2
      some ('-' :: (ip ++ f.1 ++ e.1), e.2)
  | _ =>
    match parseIntPart l with
    | none => none
    | some (ip, r1) =>
      let f := parseFracPart r1
      let e := parseExpPart f.2
      some (ip ++ f.1 ++ e.1, e.2)

mutual

/-- One step of Python's `scan_once`: parse a single JSON value at the head of
the input (no leading-whitespace skipping, exactly like `scan_once`).  The
fuel only bounds nesting/iteration depth; `json_loads` below instantiates it
so that it can never run out before the input does. -/
def parseValue : Nat → List Char → Option (Json × List Char)
  | 0, _ => none
  | fuel + 1, l =>
    match l with
    | [] => none
    | c :: rest =>
      if c = lbrace then
        match skipWs rest with
        | d :: r2 => if d = rbrace then some (Json.obj [], r2) else parseMembers fuel (skipWs rest) []
        | [] => none
      else if c = '[' then
        match skipWs rest with
        | d :: r2 => if d = ']' then some (Json.arr [], r2) else parseElems fuel (skipWs rest) []
        | [] => none
      else if c = '"' then
        (parseStringBody rest).map (fun p => (Json.str p.1, p.2))
      else
        match l with
        | 'n' :: 'u' :: 'l' :: 'l' :: r => some (Json.null, r)
        | 't' :: 'r' :: 'u' :: 'e' :: r => some (Json.bool true, r)
        | 'f' :: 'a' :: 'l' :: 's' :: 'e' :: r => some (Json.bool false, r)
        | _ =>
          match parseNumber l with
          | some (lex, r) => some (Json.num lex, r)
          | none =>
            match l with
            | 'N' :: 'a' :: 'N' :: r => some (Json.num (['N', 'a', 'N']), r)
            | 'I' :: 'n' :: 'f' :: 'i' :: 'n' :: 'i' :: 't' :: 'y' :: r =>
              some (Json.num (("Infinity").data), r)
            | '-' :: 'I' :: 'n' :: 'f' :: 'i' :: 'n' :: 'i' :: 't' :: 'y' :: r =>
              some (Json.num (("-Infinity").data), r)
            | _ => none

/-- Members of a JSON object after its `\x7b` (and not the empty object):
`"key" ws : ws value ws (, ws ...)* \x7d`, as in Python's `JSONObject`. -/
def parseMembers : Nat → List Char → List (List Char × Json) → Option (Json × List Char)
  | 0, _, _ => none
  | fuel + 1, l, acc =>
    match l with
    | '"' :: r =>
      match parseStringBody r with
      | none => none
      | some (k, r1) =>
        match skipWs r1 with
        | ':' :: r2 =>
          match parseValue fuel (skipWs r2) with
          | none => none
          | some (v, r3) =>
            match skipWs r3 with
            | c :: r4 =>
              if c = rbrace then some (Json.obj (acc ++ [(k, v)]), r4)
              else if c = ',' then parseMembers fuel (skipWs r4) (acc ++ [(k, v)])
              else none
            | [] => none
        | _ => none
    | _ => none

/-- Elements of a JSON array after its `[` (and not the empty array), as in
Python's `JSONArray`. -/
def parseElems : Nat → List Char → List Json → Option (Json × List Char)
  | 0, _, _ => none
  | fuel + 1, l, acc =>
    match parseValue fuel l with
    | none => none
    | some (v, r) =>
      match skipWs r with
      | c :: r2 =>
        if c = ']' then some (Json.arr (acc ++ [v]), r2)
        else if c = ',' then parseElems fuel (skipWs r2) (acc ++ [v])
        else none
      | [] => none

end

/-- Model of Python's `json.loads` on a string: skip leading whitespace, parse
one value, require only whitespace to remain.  `none` is a
`json.decoder.JSONDecodeError`.  The fuel `s.length + 1` can never be
exhausted before the input, since every fueled call site has consumed at least
one character. -/
def json_loads (s : List Char) : Option Json :=
  match parseValue (s.length + 1) (skipWs s) with
  | none => none
  | some (v, rest) => if skipWs rest = [] then some v else none

/-- Python slice `data[a:b]` for nonnegative bounds. -/
def pySlice (data : List Char) (a b : Nat) : List Char :=
  (data.take b).drop a

/-- Index of the first occurrence of `c` in `l`, if any. -/
def findIdx1 : List Char → Char → Option Nat
  | [], _ => none
  | x :: xs, c => if x = c then some 0 else (findIdx1 xs c).map (fun j => j + 1)

/-- Python's `str.find(c, start)` returning `some index` instead of `-1`. -/
def findFrom (data : List Char) (c : Char) (start : Nat) : Option Nat :=
  (findIdx1 (data.drop start) c).map (fun j => start + j)

/-- The exclusive end of the probe substring: one past the close brace found at
or after `start`, and `0` when there is none (Python's `find` returns `-1`, and
`-1 + 1 = 0`). -/
def probeIdx (data : List Char) (start : Nat) : Nat :=
  match findFrom data rbrace start with
  | some i => i + 1
  | none => 0

/-- The probe substring `data[len_processed : idx_of_close_bracket + 1]` that
`parse_gspro_data` hands to `json.loads`. -/
def probeSubstr (data : List Char) (lp start : Nat) : List Char :=
  pySlice data lp (probeIdx data start)

/-- The inner `while msg is None` loop of `parse_gspro_data`: probe for the
next close brace, try to decode the substring, and on failure advance `start`
by the substring's length.  The fuel only makes the model total: `none` means
the Python loop runs forever (it never throws — `JSONDecodeError` is caught,
`find` never raises).  On success, returns the decoded message together with
`len(substr)`, the amount the outer cursor advances. -/
def innerLoop : Nat → List Char → Nat → Nat → Option (Json × Nat)
  | 0, _, _, _ => none
  | fuel + 1, data, lp, start =>
    match json_loads (probeSubstr data lp start) with
    | some msg => some (msg, (probeSubstr data lp start).length)
    | none => innerLoop fuel data lp (start + (probeSubstr data lp start).length)

/-- The one error `parse_gspro_data` can raise: the `assert data[len_processed]
== "\x7b"` failing (an `AssertionError`, the `InvalidFrame` condition of the
spec). -/
inductive FrameError where
  | invalidFrame : FrameError

/-- The outer `while len_processed < len(data)` loop of `parse_gspro_data`.
`none` again means non-termination of the embedded code. -/
def outerLoop : Nat → List Char → Nat → List Json → Option (Except FrameError (List Json))
  | 0, _, _, _ => none
  | fuel + 1, data, lp, acc =>
    if lp < data.length then
      if data.getD lp ' ' = lbrace then
        match innerLoop (fuel + 1) data lp lp with
        | none => none
        | some (msg, slen) => outerLoop fuel data (lp + slen) (acc ++ [msg])
      else some (Except.error FrameError.invalidFrame)
    else some (Except.ok acc)

/-- Model of `parse_gspro_data` (src/oneshot.py lines 155-192) on the decoded
string.  `some (Except.ok msgs)` is a normal return, `some (Except.error _)`
the failing assert, and `none` means the given fuel did not suffice — used via
`FrameSplitterDiverges` to express genuine non-termination. -/
def parse_gspro_data (fuel : Nat) (data : List Char) : Option (Except FrameError (List Json)) :=
  outerLoop fuel data 0 []

/-- The embedded `parse_gspro_data` never terminates on `data`: no amount of
fuel produces a result. -/
def FrameSplitterDiverges (data : List Char) : Prop :=
  ∀ fuel, parse_gspro_data fuel data = none

/-- A top-level JSON object on which the splitter's probe loop needs at most
one retry: either its only close brace is its final character, or it has
exactly one interior close brace and the prefix ending there is not valid
JSON on its own.  (After a second failed probe the code's
`start = start + len(substr)` bookkeeping overshoots, so segments needing two
or more retries are not covered — see the C1 counterexample.) -/
def GoodSeg (seg : List Char) (v : Json) : Prop :=
  json_loads seg = some v ∧
  ((∃ body, seg = lbrace :: (body ++ [rbrace]) ∧ rbrace ∉ body) ∨
   (∃ b1 b2, seg = lbrace :: (b1 ++ rbrace :: (b2 ++ [rbrace])) ∧
      rbrace ∉ b1 ∧ rbrace ∉ b2 ∧
      json_loads (lbrace :: (b1 ++ [rbrace])) = none))

/-- Concatenate the raw texts of a list of (segment, decoded value) pairs. -/
def segsConcat : List (List Char × Json) → List Char
  | [] => []
  | p :: rest => p.1 ++ segsConcat rest

/-- First-occurrence lookup in an association list with string keys. -/
def klookup (k : List Char) : List (List Char × Json) → Option Json
  | [] => none
  | (k', v) :: r => if k' = k then some v else klookup k r

/-- Python-style indexing `j[k]` on a decoded JSON object. -/
def jget (j : Json) (k : List Char) : Option Json :=
  match j with
  | Json.obj ms => klookup k ms
  | _ => none

/-- Key strings used by the wire format. -/
def deviceKey : List Char := ("DeviceID").data

/-- Key string for the units field. -/
def unitsKey : List Char := ("Units").data

/-- Key string for the shot sequence number. -/
def shotNumberKey : List Char := ("ShotNumber").data

/-- Key string for the API version. -/
def apiKey : List Char := ("APIVersion").data

/-- Key string for the ball-data sub-object. -/
def ballKey : List Char := ("BallData").data

/-- Key string for the shot-data-options sub-object. -/
def sdoKey : List Char := ("ShotDataOptions").data

/-- Key string for `ContainsBallData`. -/
def cbdKey : List Char := ("ContainsBallData").data

/-- Key string for `ContainsClubData`. -/
def ccdKey : List Char := ("ContainsClubData").data

/-- Key string for `LaunchMonitorIsReady`. -/
def lmirKey : List Char := ("LaunchMonitorIsReady").data

/-- Key string for `LaunchMonitorBallDetected`. -/
def lmbdKey : List Char := ("LaunchMonitorBallDetected").data

/-- Key string for `IsHeartbeat`. -/
def ihbKey : List Char := ("IsHeartbeat").data

/-- Key string for `Code`. -/
def codeKey : List Char := ("Code").data

/-- Key string for `Message`. -/
def messageKey : List Char := ("Message").data

/-- Key string for `Player`. -/
def playerKey : List Char := ("Player").data

/-- Key string for the catch-all `Xtra` field. -/
def xtraKey : List Char := ("Xtra").data

/-- The `BallData` dataclass: five required float measurements.  The floats are
carried as their decimal literals — the program never computes with them, it
only moves them between JSON and dataclass fields. -/
structure BallDataT where
  Speed : List Char
  SpinAxis : List Char
  TotalSpin : List Char
  HLA : List Char
  VLA : List Char

/-- The `ShotDataOptions` dataclass with its field defaults; the three
tri-state flags are `None` (here `none`) unless explicitly set. -/
structure ShotDataOptionsT where
  ContainsBallData : Bool := true
  ContainsClubData : Bool := false
  LaunchMonitorIsReady : Option Bool := none
  LaunchMonitorBallDetected : Option Bool := none
  IsHeartbeat : Option Bool := none

/-- The `Shot` dataclass after `__post_init__` ran: `ShotNumber` always holds
the value taken from the class-level counter. -/
structure ShotT where
  DeviceID : List Char
  Units : List Char
  ShotNumber : Int
  APIVersion : List Char
  BallData : Option BallDataT
  ShotDataOptions : ShotDataOptionsT

/-- Arguments passed to the `Shot` constructor, with the dataclass defaults.
A caller-supplied `ShotNumber` (as in `dataclasses.replace`) is listed here
because Python accepts it — `__post_init__` then discards it. -/
structure ShotArgs where
  DeviceID : List Char := ("GSPro LM 1.1").data
  Units : List Char := ("Yards").data
  ShotNumber : Int := -1
  APIVersion : List Char := ("1").data
  BallData : Option BallDataT := none
  ShotDataOptions : ShotDataOptionsT := {}

/-- The initial value of the class-level counter `Shot.next_shot_number`. -/
def next_shot_number_init : Nat := 42

/-- Constructing a `Shot`: `__init__` stores the arguments, then
`__post_init__` overwrites `ShotNumber` with the process-wide counter and
increments the counter.  The counter is threaded explicitly as state. -/
def mkShot (counter : Nat) (a : ShotArgs) : ShotT × Nat :=
  ({ DeviceID := a.DeviceID
     Units := a.Units
     ShotNumber := (counter : Int)
     APIVersion := a.APIVersion
     BallData := a.BallData
     ShotDataOptions := a.ShotDataOptions },
   counter + 1)

/-- `Shot.heartbeat()`: a fresh `Shot` whose only non-default argument is
`ShotDataOptions(ContainsBallData=False, ContainsClubData=False,
IsHeartbeat=True)`. -/
def Shot_heartbeat (counter : Nat) : ShotT × Nat :=
  mkShot counter
    { ShotDataOptions :=
        { ContainsBallData := false
          ContainsClubData := false
          IsHeartbeat := some true } }

/-- Run a sequence of `Shot` constructions against the shared counter,
returning the constructed shots in order. -/
def constructShots : Nat → List ShotArgs → List ShotT
  | _, [] => []
  | c, a :: rest => (mkShot c a).1 :: constructShots (mkShot c a).2 rest

/-- Decimal lexeme of a natural number. -/
def natLex (n : Nat) : List Char := Nat.toDigits 10 n

/-- Decimal lexeme of an integer (Python `json.dumps` of an `int`). -/
def intLex : Int → List Char
  | Int.ofNat n => natLex n
  | Int.negSucc n => '-' :: natLex (n + 1)

/-- Dict entry contributed by an optional (`bool | None`) field under the
"ignore None" rule: absent when the field is `None`. -/
def optEntry (name : List Char) : Option Bool → List (List Char × Json)
  | some b => [(name, Json.bool b)]
  | none => []

/-- `asdict_ignore_none` applied to a `BallData` value: all five fields are
floats, never `None`, so all five keys are always present (field order as in
the dataclass). -/
def asdict_ignore_none_BallData (b : BallDataT) : List (List Char × Json) :=
  [(("Speed").data, Json.num b.Speed),
   (("SpinAxis").data, Json.num b.SpinAxis),
   (("TotalSpin").data, Json.num b.TotalSpin),
   (("HLA").data, Json.num b.HLA),
   (("VLA").data, Json.num b.VLA)]

/-- `asdict_ignore_none` applied to a `ShotDataOptions` value: iterate the
fields in dataclass order, skipping those whose value is `None`. -/
def asdict_ignore_none_ShotDataOptions (o : ShotDataOptionsT) : List (List Char × Json) :=
  [(cbdKey, Json.bool o.ContainsBallData), (ccdKey, Json.bool o.ContainsClubData)]
  ++ optEntry lmirKey o.LaunchMonitorIsReady
  ++ optEntry lmbdKey o.LaunchMonitorBallDetected
  ++ optEntry ihbKey o.IsHeartbeat

/-- `asdict_ignore_none` applied to a `Shot` value: fields in dataclass order;
`BallData` is omitted when `None` and recursed into when present (it is a
dataclass), and `ShotDataOptions` is always a dataclass value, recursed into. -/
def asdict_ignore_none_Shot (s : ShotT) : List (List Char × Json) :=
  [(deviceKey, Json.str s.DeviceID),
   (unitsKey, Json.str s.Units),
   (shotNumberKey, Json.num (intLex s.ShotNumber)),
   (apiKey, Json.str s.APIVersion)]
  ++ (match s.BallData with
      | some b => [(ballKey, Json.obj (asdict_ignore_none_BallData b))]
      | none => [])
  ++ [(sdoKey, Json.obj (asdict_ignore_none_ShotDataOptions s.ShotDataOptions))]

/-- Lowercase hex digit. -/
def hexDigit (n : Nat) : Char :=
  if n < 10 then Char.ofNat ('0'.toNat + n) else Char.ofNat ('a'.toNat + (n - 10))

/-- Four-digit lowercase hex, as in Python's `\uXXXX` escapes. -/
def hex4 (n : Nat) : List Char :=
  [hexDigit (n / 4096 % 16), hexDigit (n / 256 % 16), hexDigit (n / 16 % 16), hexDigit (n % 16)]

/-- Serialization of one character inside a JSON string, following
`json.dumps` with its default `ensure_ascii=True`. -/
def escChar (c : Char) : List Char :=
  if c = '"' then ['\\', '"']
  else if c = '\\' then ['\\', '\\']
  else if c = '\n' then ['\\', 'n']
  else if c = '\r' then ['\\', 'r']
  else if c = '\t' then ['\\', 't']
  else if c.toNat = 8 then ['\\', 'b']
  else if c.toNat = 12 then ['\\', 'f']
  else if c.toNat < 32 ∨ 126 < c.toNat then
    if c.toNat < 65536 then '\\' :: 'u' :: hex4 c.toNat
    else
      '\\' :: 'u' :: hex4 (55296 + (c.toNat - 65536) / 1024)
      ++ ('\\' :: 'u' :: hex4 (56320 + (c.toNat - 65536) % 1024))
  else [c]

/-- `json.dumps` of a string value. -/
def dumpsStr (s : List Char) : List Char :=
  '"' :: (s.flatMap escChar) ++ ['"']

mutual

/-- `json.dumps` with its default separators `", "` and `": "`. -/
def dumpsJson : Json → List Char
  | Json.null => ("null").data
  | Json.bool true => ("true").data
  | Json.bool false => ("false").data
  | Json.num lex => lex
  | Json.str s => dumpsStr s
  | Json.arr xs => '[' :: dumpsElems xs ++ [']']
  | Json.obj ms => lbrace :: dumpsMembers ms ++ [rbrace]

/-- Comma-separated array elements. -/
def dumpsElems : List Json → List Char
  | [] => []
  | [x] => dumpsJson x
  | x :: y :: r => dumpsJson x ++ (", ").data ++ dumpsElems (y :: r)

/-- Comma-separated `"key": value` members. -/
def dumpsMembers : List (List Char × Json) → List Char
  | [] => []
  | [(k, v)] => dumpsStr k ++ (": ").data ++ dumpsJson v
  | (k, v) :: m :: r => dumpsStr k ++ (": ").data ++ dumpsJson v ++ (", ").data ++ dumpsMembers (m :: r)

end

/-- `Shot.as_msg`: `json.dumps(asdict_ignore_none(self))` (the UTF-8 byte
count equals the character count for the ASCII payloads this program builds;
the model stays at the character level). -/
def as_msg (s : ShotT) : List Char :=
  dumpsJson (Json.obj (asdict_ignore_none_Shot s))

/-- The `GSProMessage` dataclass.  Field values hold whatever JSON value the
host sent (`create_from_dict` performs no conversion — in particular `Player`
stays a raw decoded dict); `Json.null` is Python's `None` default. -/
structure GSProMessageT where
  Code : Json
  Message : Json := Json.null
  Player : Json := Json.null
  Xtra : List (List Char × Json) := []

/-- Python errors that `GSProMessage.create_from_dict` can raise: calling the
constructor without the required `Code` argument is a `TypeError`. -/
inductive DecodeError where
  | typeError : DecodeError

/-- `dct.pop(k)` guarded by `k in dct`: the looked-up value (if the key is
present) and the dictionary without that entry. -/
def popKey (k : List Char) : List (List Char × Json) → Option Json × List (List Char × Json)
  | [] => (none, [])
  | (k', v) :: rest =>
    if k' = k then (some v, rest)
    else
      let p := popKey k rest
      (p.1, (k', v) :: p.2)

/-- `GSProMessage.create_from_dict`: copy the dict, pop each dataclass field
name present (`fields(cls)` order: Code, Message, Player, Xtra), store the
remainder as the `Xtra` keyword (overwriting any popped `"Xtra"` entry), and
call the constructor — which fails with `TypeError` when `Code` was absent. -/
def create_from_dict (dct : List (List Char × Json)) : Except DecodeError GSProMessageT :=
  let p1 := popKey codeKey dct
  let p2 := popKey messageKey p1.2
  let p3 := popKey playerKey p2.2
  let p4 := popKey xtraKey p3.2
  match p1.1 with
  | none => Except.error DecodeError.typeError
  | some cv =>
    Except.ok
      { Code := cv
        Message := p2.1.getD Json.null
        Player := p3.1.getD Json.null
        Xtra := p4.2 }

/-- One entry of the session's append-only `shots_and_responses` log. -/
inductive SessionEntry where
  | sentShot : ShotT → SessionEntry
  | hostMsg : GSProMessageT → SessionEntry

/-- Observable outcome of `GSProSession.recv_data` on one read.  The method
body is
`msgs = [GSProMessage.create(dct) for dct in parse_gspro_data(resp_bytes)]`,
and the class defines no method named `create` — so the first decoded object
makes the comprehension raise `AttributeError`.  When the splitter yields no
objects the comprehension is empty, nothing is appended, and the method falls
off the end, returning Python `None`. -/
inductive RecvOutcome where
  | attributeError : RecvOutcome
  | invalidFrame : RecvOutcome
  | returnsNone : List SessionEntry → RecvOutcome

/-- `GSProSession.recv_data` given the bytes the single `sock.recv(2048)` call
returned (a peer close delivers zero bytes, i.e. `[]`).  The fuel feeds the
frame splitter; `none` again models its non-termination. -/
def recv_data (fuel : Nat) (log : List SessionEntry) (chunk : List Char) : Option RecvOutcome :=
  match parse_gspro_data fuel chunk with
  | none => none
  | some (Except.error _) => some RecvOutcome.invalidFrame
  | some (Except.ok msgs) =>
    match msgs with
    | [] => some (RecvOutcome.returnsNone log)
    | _ :: _ => some RecvOutcome.attributeError

/-- Outcome of `GSProSession.send_shot`: normal return, or the `ValueError`
raised when the transport accepted fewer bytes than the payload (the spec's
`ShortWriteError`). -/
inductive SendOutcome where
  | ok : SendOutcome
  | shortWriteError : SendOutcome

/-- `GSProSession.send_shot`: serialize the shot, append it to
`shots_and_responses`, then perform the single `sock.send`; raise when the
byte count returned by the transport differs from the payload length.  The
transport's acceptance count is the explicit `nbytes_sent` input; no retry
loop exists.  Returns the updated log together with the outcome — note the
append happens before the send, so the log is extended even on error. -/
def send_shot (log : List SessionEntry) (golfshot : ShotT) (nbytes_sent : Nat) :
    List SessionEntry × SendOutcome :=
  (log ++ [SessionEntry.sentShot golfshot],
   if (as_msg golfshot).length ≠ nbytes_sent then SendOutcome.shortWriteError else SendOutcome.ok)

/-- Keys of a Python dict modelled as an association list. -/
def keysOf (d : List (List Char × Json)) : List (List Char) :=
  d.map Prod.fst

/-- First message of the documented four-message host buffer. -/
def sampleMsg1Text : List Char :=
  ("\x7b\"Code\":200,\"Message\":\"Ball Data received\",\"Player\":null\x7d").data

/-- Second message: the one with a nested `Player` object. -/
def sampleMsg2Text : List Char :=
  ("\x7b\"Code\":201,\"Message\":\"GSPro Player Information\",\"Player\":\x7b\"Handed\":\"RH\",\"Club\":\"DR\",\"DistanceToTarget\":380.0\x7d\x7d").data

/-- Third message. -/
def sampleMsg3Text : List Char :=
  ("\x7b\"Code\":202,\"Message\":\"GSPro ready\",\"Player\":null\x7d").data

/-- Fourth message. -/
def sampleMsg4Text : List Char :=
  ("\x7b\"Code\":203,\"Message\":\"GSPro round ended\",\"Player\":null\x7d").data

/-- Interior of the first message (between its braces). -/
def sampleBody1 : List Char :=
  ("\"Code\":200,\"Message\":\"Ball Data received\",\"Player\":null").data

/-- Prefix of the second message's interior up to (excluding) the close brace
of the nested `Player` object. -/
def sampleB1 : List Char :=
  ("\"Code\":201,\"Message\":\"GSPro Player Information\",\"Player\":\x7b\"Handed\":\"RH\",\"Club\":\"DR\",\"DistanceToTarget\":380.0").data

/-- Interior of the third message. -/
def sampleBody3 : List Char :=
  ("\"Code\":202,\"Message\":\"GSPro ready\",\"Player\":null").data

/-- Interior of the fourth message. -/
def sampleBody4 : List Char :=
  ("\"Code\":203,\"Message\":\"GSPro round ended\",\"Player\":null").data

/-- Decoded value of the first message. -/
def sampleJson1 : Json :=
  Json.obj [(codeKey, Json.num (("200").data)),
            (messageKey, Json.str (("Ball Data received").data)),
            (playerKey, Json.null)]

/-- Decoded value of the second message. -/
def sampleJson2 : Json :=
  Json.obj [(codeKey, Json.num (("201").data)),
            (messageKey, Json.str (("GSPro Player Information").data)),
            (playerKey, Json.obj [((("Handed").data), Json.str (("RH").data)),
                                  ((("Club").data), Json.str (("DR").data)),
                                  ((("DistanceToTarget").data), Json.num (("380.0").data))])]

/-- Decoded value of the third message. -/
def sampleJson3 : Json :=
  Json.obj [(codeKey, Json.num (("202").data)),
            (messageKey, Json.str (("GSPro ready").data)),
            (playerKey, Json.null)]

/-- Decoded value of the fourth message. -/
def sampleJson4 : Json :=
  Json.obj [(codeKey, Json.num (("203").data)),
            (messageKey, Json.str (("GSPro round ended").data)),
            (playerKey, Json.null)]

/-- The four documented messages paired with their decoded values. -/
def sampleSegs : List (List Char × Json) :=
  [(sampleMsg1Text, sampleJson1), (sampleMsg2Text, sampleJson2),
   (sampleMsg3Text, sampleJson3), (sampleMsg4Text, sampleJson4)]

/-- The four messages written back-to-back, exactly the buffer of the source's
doc comment and `test_resp`. -/
def sampleBuffer : List Char :=
  sampleMsg1Text ++ sampleMsg2Text ++ sampleMsg3Text ++ sampleMsg4Text

/-- A single well-formed JSON object with two object-valued fields.  Splitting
it needs two probe retries, which the splitter's bookkeeping cannot do. -/
def twoNestedObjectText : List Char :=
  ("\x7b\"a\":\x7b\"b\":1\x7d,\"c\":\x7b\"d\":2\x7d\x7d").data

/-- Decoded value of `twoNestedObjectText`. -/
def twoNestedObjectJson : Json :=
  Json.obj [((("a").data), Json.obj [((("b").data), Json.num (("1").data))]),
            ((("c").data), Json.obj [((("d").data), Json.num (("2").data))])]

/-- One complete object followed by a truncated second object: the failure
mode of a frame split across two socket reads. -/
def truncatedPairText : List Char :=
  ("\x7b\"Code\":200\x7d\x7b\"Mes").data

/-- Decoded value of the complete first object of `truncatedPairText`. -/
def truncatedFirstJson : Json :=
  Json.obj [(codeKey, Json.num (("200").data))]

/-- The ball data `main()` starts from. -/
def sampleBall : BallDataT :=
  { Speed := ("75").data
    SpinAxis := ("13.2").data
    TotalSpin := ("9000").data
    HLA := ("-5").data
    VLA := ("29").data }

/-- A heartbeat shot constructed when the counter stood at its initial 42. -/
def heartbeatShot42 : ShotT := (Shot_heartbeat next_shot_number_init).1

theorem take_len_append (l1 l2 : List Char) (n : Nat) :
    (l1 ++ l2).take (l1.length + n) = l1 ++ l2.take n := by
  induction l1 with
  | nil => simp
  | cons a t ih => simp [List.length_cons, Nat.succ_add, List.take, ih]

theorem drop_len_append (l1 l2 : List Char) :
    (l1 ++ l2).drop l1.length = l2 := by
  induction l1 with
  | nil => simp
  | cons a t ih => simp only [List.cons_append, List.length_cons, List.drop]; exact ih

theorem take_len_append_self (l1 l2 : List Char) :
    (l1 ++ l2).take l1.length = l1 := by
  have h := take_len_append l1 l2 0
  simp only [Nat.add_zero, List.take_zero, List.append_nil] at h
  exact h

theorem getD_len_append (l1 : List Char) (c : Char) (l2 : List Char) (d : Char) :
    (l1 ++ c :: l2).getD l1.length d = c := by
  induction l1 with
  | nil => rfl
  | cons a t ih => simpa [List.getD, List.length_cons] using ih

theorem findIdx1_cons_self (c : Char) (l : List Char) :
    findIdx1 (c :: l) c = some 0 := by
  simp [findIdx1]

theorem findIdx1_append_of_not_mem (l1 l2 : List Char) (c : Char) (h : c ∉ l1) :
    findIdx1 (l1 ++ l2) c = (findIdx1 l2 c).map (fun j => l1.length + j) := by
  induction l1 with
  | nil =>
    cases hf : findIdx1 l2 c <;> simp [hf]
  | cons a t ih =>
    have ha : a ≠ c := fun hac => h (by simp [hac])
    have ht : c ∉ t := fun hct => h (by simp [hct])
    cases hf : findIdx1 l2 c <;>
      simp [findIdx1, ha, ih ht, hf, Option.map, List.length_cons, Nat.succ_add, Nat.add_comm,
        Nat.add_left_comm]

theorem pySlice_middle (pre mid rest : List Char) :
    pySlice (pre ++ mid ++ rest) pre.length (pre.length + mid.length) = mid := by
  have h1 : (pre ++ mid ++ rest).take (pre.length + mid.length) = pre ++ mid := by
    rw [List.append_assoc, take_len_append, take_len_append_self]
  simp only [pySlice, h1, drop_len_append]

theorem innerLoop_step_ok (f : Nat) (data : List Char) (lp start : Nat) (msg : Json)
    (h : json_loads (probeSubstr data lp start) = some msg) :
    innerLoop (f + 1) data lp start = some (msg, (probeSubstr data lp start).length) := by
  simp [innerLoop, h]

theorem innerLoop_step_fail (f : Nat) (data : List Char) (lp start : Nat)
    (h : json_loads (probeSubstr data lp start) = none) :
    innerLoop (f + 1) data lp start = innerLoop f data lp (start + (probeSubstr data lp start).length) := by
  simp [innerLoop, h]

theorem innerLoop_stuck (data : List Char) (lp start : Nat)
    (h : probeSubstr data lp start = []) :
    ∀ f, innerLoop f data lp start = none := by
  intro f
  induction f with
  | zero => rfl
  | succ g ih =>
    have hj : json_loads (probeSubstr data lp start) = none := by rw [h]; rfl
    rw [innerLoop_step_fail g data lp start hj, h]
    simpa using ih

theorem outerLoop_step_done (f : Nat) (data : List Char) (lp : Nat) (acc : List Json)
    (h : ¬ lp < data.length) :
    outerLoop (f + 1) data lp acc = some (Except.ok acc) := by
  simp only [outerLoop]
  rw [if_neg h]

theorem outerLoop_step_invalid (f : Nat) (data : List Char) (lp : Nat) (acc : List Json)
    (h1 : lp < data.length) (h2 : data.getD lp ' ' ≠ lbrace) :
    outerLoop (f + 1) data lp acc = some (Except.error FrameError.invalidFrame) := by
  simp only [outerLoop]
  rw [if_pos h1, if_neg h2]

theorem outerLoop_step_none (f : Nat) (data : List Char) (lp : Nat) (acc : List Json)
    (h1 : lp < data.length) (h2 : data.getD lp ' ' = lbrace)
    (h3 : innerLoop (f + 1) data lp lp = none) :
    outerLoop (f + 1) data lp acc = none := by
  simp only [outerLoop]
  rw [if_pos h1, if_pos h2, h3]

theorem outerLoop_step_some (f : Nat) (data : List Char) (lp : Nat) (acc : List Json)
    (msg : Json) (slen : Nat)
    (h1 : lp < data.length) (h2 : data.getD lp ' ' = lbrace)
    (h3 : innerLoop (f + 1) data lp lp = some (msg, slen)) :
    outerLoop (f + 1) data lp acc = outerLoop f data (lp + slen) (acc ++ [msg]) := by
  simp only [outerLoop]
  rw [if_pos h1, if_pos h2, h3]

theorem findFrom_middle (pre noBrace tail : List Char) (h : rbrace ∉ noBrace) :
    findFrom (pre ++ (noBrace ++ rbrace :: tail)) rbrace pre.length
      = some (pre.length + noBrace.length) := by
  unfold findFrom
  rw [drop_len_append, findIdx1_append_of_not_mem noBrace (rbrace :: tail) rbrace h,
    findIdx1_cons_self]
  simp

theorem probeIdx_of_find (data : List Char) (start i : Nat)
    (h : findFrom data rbrace start = some i) :
    probeIdx data start = i + 1 := by
  unfold probeIdx
  rw [h]

theorem innerLoop_flat (pre body rest : List Char) (v : Json) (f : Nat)
    (hnb : rbrace ∉ body)
    (hload : json_loads (lbrace :: (body ++ [rbrace])) = some v) :
    innerLoop (f + 1) (pre ++ (lbrace :: (body ++ [rbrace])) ++ rest) pre.length pre.length
      = some (v, body.length + 2) := by
  have hnb2 : rbrace ∉ lbrace :: body := by
    intro hm
    rcases List.mem_cons.mp hm with hm | hm
    · exact absurd hm (by decide)
    · exact hnb hm
  have hps : probeSubstr (pre ++ (lbrace :: (body ++ [rbrace])) ++ rest) pre.length pre.length
      = lbrace :: (body ++ [rbrace]) := by
    have hfind : findFrom (pre ++ (lbrace :: (body ++ [rbrace])) ++ rest) rbrace pre.length
        = some (pre.length + (body.length + 1)) := by
      rw [show pre ++ (lbrace :: (body ++ [rbrace])) ++ rest
            = pre ++ ((lbrace :: body) ++ (rbrace :: rest)) by simp,
        findFrom_middle pre (lbrace :: body) rest hnb2]
      simp
    have hpi := probeIdx_of_find _ _ _ hfind
    unfold probeSubstr
    rw [hpi, show pre.length + (body.length + 1) + 1
          = pre.length + (lbrace :: (body ++ [rbrace])).length by simp; omega]
    exact pySlice_middle pre (lbrace :: (body ++ [rbrace])) rest
  have hj : json_loads
      (probeSubstr (pre ++ (lbrace :: (body ++ [rbrace])) ++ rest) pre.length pre.length)
      = some v := by
    rw [hps]; exact hload
  rw [innerLoop_step_ok f _ pre.length pre.length v hj, hps]
  simp

theorem innerLoop_retry (pre b1 b2 rest : List Char) (v : Json) (f : Nat)
    (h1 : rbrace ∉ b1) (h2 : rbrace ∉ b2)
    (hfail : json_loads (lbrace :: (b1 ++ [rbrace])) = none)
    (hload : json_loads (lbrace :: (b1 ++ rbrace :: (b2 ++ [rbrace]))) = some v) :
    innerLoop (f + 2) (pre ++ (lbrace :: (b1 ++ rbrace :: (b2 ++ [rbrace]))) ++ rest)
      pre.length pre.length
      = some (v, b1.length + b2.length + 3) := by
  have hnb1 : rbrace ∉ lbrace :: b1 := by
    intro hm
    rcases List.mem_cons.mp hm with hm | hm
    · exact absurd hm (by decide)
    · exact h1 hm
  have hps1 : probeSubstr (pre ++ (lbrace :: (b1 ++ rbrace :: (b2 ++ [rbrace]))) ++ rest)
      pre.length pre.length = lbrace :: (b1 ++ [rbrace]) := by
    have hfind : findFrom (pre ++ (lbrace :: (b1 ++ rbrace :: (b2 ++ [rbrace]))) ++ rest)
        rbrace pre.length = some (pre.length + (b1.length + 1)) := by
      rw [show pre ++ (lbrace :: (b1 ++ rbrace :: (b2 ++ [rbrace]))) ++ rest
            = pre ++ ((lbrace :: b1) ++ (rbrace :: (b2 ++ [rbrace] ++ rest))) by simp,
        findFrom_middle pre (lbrace :: b1) (b2 ++ [rbrace] ++ rest) hnb1]
      simp
    have hpi := probeIdx_of_find _ _ _ hfind
    unfold probeSubstr
    rw [hpi, show pre.length + (b1.length + 1) + 1
          = pre.length + (lbrace :: (b1 ++ [rbrace])).length by simp; omega,
      show pre ++ (lbrace :: (b1 ++ rbrace :: (b2 ++ [rbrace]))) ++ rest
          = pre ++ (lbrace :: (b1 ++ [rbrace])) ++ (b2 ++ [rbrace] ++ rest) by simp]
    exact pySlice_middle pre (lbrace :: (b1 ++ [rbrace])) (b2 ++ [rbrace] ++ rest)
  have hj1 : json_loads (probeSubstr (pre ++ (lbrace :: (b1 ++ rbrace :: (b2 ++ [rbrace]))) ++ rest)
      pre.length pre.length) = none := by
    rw [hps1]; exact hfail
  rw [innerLoop_step_fail (f + 1) _ pre.length pre.length hj1, hps1]
  have hps2 : probeSubstr (pre ++ (lbrace :: (b1 ++ rbrace :: (b2 ++ [rbrace]))) ++ rest)
      pre.length (pre.length + (lbrace :: (b1 ++ [rbrace])).length)
      = lbrace :: (b1 ++ rbrace :: (b2 ++ [rbrace])) := by
    have hfind : findFrom (pre ++ (lbrace :: (b1 ++ rbrace :: (b2 ++ [rbrace]))) ++ rest)
        rbrace (pre.length + (lbrace :: (b1 ++ [rbrace])).length)
        = some ((pre ++ (lbrace :: (b1 ++ [rbrace]))).length + b2.length) := by
      rw [show pre.length + (lbrace :: (b1 ++ [rbrace])).length
            = (pre ++ (lbrace :: (b1 ++ [rbrace]))).length by simp,
        show pre ++ (lbrace :: (b1 ++ rbrace :: (b2 ++ [rbrace]))) ++ rest
            = (pre ++ (lbrace :: (b1 ++ [rbrace]))) ++ (b2 ++ rbrace :: rest) by simp]
      exact findFrom_middle (pre ++ (lbrace :: (b1 ++ [rbrace]))) b2 rest h2
    have hpi := probeIdx_of_find _ _ _ hfind
    unfold probeSubstr
    rw [hpi, show (pre ++ (lbrace :: (b1 ++ [rbrace]))).length + b2.length + 1
          = pre.length + (lbrace :: (b1 ++ rbrace :: (b2 ++ [rbrace]))).length by simp; omega]
    exact pySlice_middle pre (lbrace :: (b1 ++ rbrace :: (b2 ++ [rbrace]))) rest
  rw [show (lbrace :: (b1 ++ [rbrace])).length = b1.length + 2 by simp] at hps2
  have hj2 : json_loads (probeSubstr (pre ++ (lbrace :: (b1 ++ rbrace :: (b2 ++ [rbrace]))) ++ rest)
      pre.length (pre.length + (b1.length + 2))) = some v := by
    rw [hps2]; exact hload
  rw [show (lbrace :: (b1 ++ [rbrace])).length = b1.length + 2 by simp]
  rw [innerLoop_step_ok f _ pre.length (pre.length + (b1.length + 2)) v hj2, hps2]
  simp
  omega

theorem outerLoop_goodsegs :
    ∀ (segs : List (List Char × Json)) (pre : List Char) (acc : List Json),
      (∀ p ∈ segs, GoodSeg p.1 p.2) →
      outerLoop (segs.length + 2) (pre ++ segsConcat segs) pre.length acc
        = some (Except.ok (acc ++ segs.map Prod.snd)) := by
  intro segs
  induction segs with
  | nil =>
    intro pre acc _
    have h : ¬ pre.length < (pre ++ segsConcat []).length := by simp [segsConcat]
    have hstep := outerLoop_step_done 1 (pre ++ segsConcat []) pre.length acc h
    simpa [segsConcat] using hstep
  | cons p rest ih =>
    intro pre acc hg
    obtain ⟨seg, v⟩ := p
    obtain ⟨hload, hshape⟩ := hg (seg, v) (List.mem_cons_self _ _)
    have hgrest : ∀ q ∈ rest, GoodSeg q.1 q.2 := fun q hq => hg q (List.mem_cons_of_mem _ hq)
    rcases hshape with ⟨body, hseq, hnb⟩ | ⟨b1, b2, hseq, hnb1, hnb2, hfail⟩
    · subst hseq
      have hdata : segsConcat ((lbrace :: (body ++ [rbrace]), v) :: rest)
          = (lbrace :: (body ++ [rbrace])) ++ segsConcat rest := rfl
      rw [show ((lbrace :: (body ++ [rbrace]), v) :: rest).length + 2 = (rest.length + 2) + 1
            by simp, hdata, ← List.append_assoc]
      have h1 : pre.length < (pre ++ (lbrace :: (body ++ [rbrace])) ++ segsConcat rest).length := by
        simp
      have h2 : (pre ++ (lbrace :: (body ++ [rbrace])) ++ segsConcat rest).getD pre.length ' '
          = lbrace := by
        rw [List.append_assoc,
          show (lbrace :: (body ++ [rbrace])) ++ segsConcat rest
              = lbrace :: ((body ++ [rbrace]) ++ segsConcat rest) from rfl]
        exact getD_len_append pre lbrace ((body ++ [rbrace]) ++ segsConcat rest) ' '
      have hinner : innerLoop ((rest.length + 2) + 1)
          (pre ++ (lbrace :: (body ++ [rbrace])) ++ segsConcat rest) pre.length pre.length
          = some (v, body.length + 2) :=
        innerLoop_flat pre body (segsConcat rest) v (rest.length + 2) hnb hload
      rw [outerLoop_step_some (rest.length + 2) _ pre.length acc v (body.length + 2) h1 h2 hinner]
      have hlen : pre.length + (body.length + 2)
          = (pre ++ (lbrace :: (body ++ [rbrace]))).length := by
        simp
      rw [hlen, ih (pre ++ (lbrace :: (body ++ [rbrace]))) (acc ++ [v]) hgrest]
      simp
    · subst hseq
      have hdata : segsConcat ((lbrace :: (b1 ++ rbrace :: (b2 ++ [rbrace])), v) :: rest)
          = (lbrace :: (b1 ++ rbrace :: (b2 ++ [rbrace]))) ++ segsConcat rest := rfl
      rw [show ((lbrace :: (b1 ++ rbrace :: (b2 ++ [rbrace])), v) :: rest).length + 2
            = (rest.length + 1) + 2 by simp, hdata, ← List.append_assoc]
      have h1 : pre.length
          < (pre ++ (lbrace :: (b1 ++ rbrace :: (b2 ++ [rbrace]))) ++ segsConcat rest).length := by
        simp
      have h2 : (pre ++ (lbrace :: (b1 ++ rbrace :: (b2 ++ [rbrace]))) ++ segsConcat rest).getD
          pre.length ' ' = lbrace := by
        rw [List.append_assoc,
          show (lbrace :: (b1 ++ rbrace :: (b2 ++ [rbrace]))) ++ segsConcat rest
              = lbrace :: ((b1 ++ rbrace :: (b2 ++ [rbrace])) ++ segsConcat rest) from rfl]
        exact getD_len_append pre lbrace _ ' '
      have hinner : innerLoop ((rest.length + 1) + 2)
          (pre ++ (lbrace :: (b1 ++ rbrace :: (b2 ++ [rbrace]))) ++ segsConcat rest)
          pre.length pre.length
          = some (v, b1.length + b2.length + 3) :=
        innerLoop_retry pre b1 b2 (segsConcat rest) v (rest.length + 1) hnb1 hnb2 hfail hload
      have hstep := outerLoop_step_some (rest.length + 2) _ pre.length acc v
        (b1.length + b2.length + 3) h1 h2 hinner
      rw [show (rest.length + 1) + 2 = (rest.length + 2) + 1 by omega] at hstep
      rw [show (rest.length + 1) + 2 = (rest.length + 2) + 1 by omega, hstep]
      have hlen : pre.length + (b1.length + b2.length + 3)
          = (pre ++ (lbrace :: (b1 ++ rbrace :: (b2 ++ [rbrace])))).length := by
        simp
        omega
      rw [hlen, ih (pre ++ (lbrace :: (b1 ++ rbrace :: (b2 ++ [rbrace])))) (acc ++ [v]) hgrest]
      simp

theorem sampleSegs_good : ∀ p ∈ sampleSegs, GoodSeg p.1 p.2 := by
  intro p hp
  simp only [sampleSegs, List.mem_cons, List.not_mem_nil, or_false] at hp
  rcases hp with h | h | h | h
  · subst h
    exact ⟨by rfl, Or.inl ⟨sampleBody1, by rfl, by decide⟩⟩
  · subst h
    exact ⟨by rfl, Or.inr ⟨sampleB1, [], by rfl, by decide, by decide, by rfl⟩⟩
  · subst h
    exact ⟨by rfl, Or.inl ⟨sampleBody3, by rfl, by decide⟩⟩
  · subst h
    exact ⟨by rfl, Or.inl ⟨sampleBody4, by rfl, by decide⟩⟩

/-- C1 (amended): for every buffer that is the concatenation of n ≥ 0
well-formed JSON objects, each of which needs at most one probe retry — its
only close brace is its final character, or it has exactly one interior close
brace (e.g. one nested object in last position) whose prefix is not valid
JSON on its own — `parse_gspro_data` returns exactly the n decoded values in
buffer order; in particular the concrete four-message buffer decodes to
exactly those 4 objects, the second having `Player.Club == "DR"`.  (The
unrestricted claim is false: see the counterexample theorem, where a single
object with two nested objects makes the splitter diverge.) -/
theorem parse_gspro_data_splits_segments :
    (∀ segs : List (List Char × Json), (∀ p ∈ segs, GoodSeg p.1 p.2) →
      parse_gspro_data (segs.length + 2) (segsConcat segs)
        = some (Except.ok (segs.map Prod.snd))) ∧
    parse_gspro_data 6 sampleBuffer
      = some (Except.ok [sampleJson1, sampleJson2, sampleJson3, sampleJson4]) ∧
    (jget sampleJson2 playerKey).bind (fun p => jget p (("Club").data))
      = some (Json.str (("DR").data)) := by
  have hgen : ∀ segs : List (List Char × Json), (∀ p ∈ segs, GoodSeg p.1 p.2) →
      parse_gspro_data (segs.length + 2) (segsConcat segs)
        = some (Except.ok (segs.map Prod.snd)) := by
    intro segs hsegs
    have h := outerLoop_goodsegs segs [] [] hsegs
    simpa [parse_gspro_data] using h
  refine ⟨hgen, ?_, by rfl⟩
  have h := hgen sampleSegs sampleSegs_good
  simpa [sampleSegs, segsConcat, sampleBuffer, List.append_assoc] using h

/-- Witness for C1: the amended theorem applied to the four concrete
messages. -/
theorem parse_gspro_data_splits_segments_witness :
    parse_gspro_data (sampleSegs.length + 2) (segsConcat sampleSegs)
      = some (Except.ok (sampleSegs.map Prod.snd)) :=
  parse_gspro_data_splits_segments.1 sampleSegs sampleSegs_good

theorem twoNested_inner_none : ∀ f, innerLoop f twoNestedObjectText 0 0 = none := by
  intro f
  match f with
  | 0 => rfl
  | 1 =>
    rw [innerLoop_step_fail 0 twoNestedObjectText 0 0 (by rfl)]
    rfl
  | g + 2 =>
    rw [innerLoop_step_fail (g + 1) twoNestedObjectText 0 0 (by rfl),
      show (probeSubstr twoNestedObjectText 0 0).length = 12 from rfl,
      innerLoop_step_fail g twoNestedObjectText 0 (0 + 12) (by rfl),
      show (probeSubstr twoNestedObjectText 0 (0 + 12)).length = 24 from rfl]
    exact innerLoop_stuck twoNestedObjectText 0 (0 + 12 + 24) (by rfl) g

/-- C1 counterexample: `twoNestedObjectText` is one single well-formed JSON
object (with two object-valued fields), yet the Frame Splitter never returns:
the first probe ends at the close of the first nested object and fails; the
retry bookkeeping `start = start + len(substr)` then overshoots past the
second close brace, `find` returns -1 forever, and the probe substring stays
empty — the inner loop never terminates, so no list of decoded values (of any
length) is ever produced. -/
theorem parse_gspro_data_two_nested_diverges :
    json_loads twoNestedObjectText = some twoNestedObjectJson ∧
    FrameSplitterDiverges twoNestedObjectText := by
  refine ⟨by rfl, ?_⟩
  intro fuel
  cases fuel with
  | zero => rfl
  | succ f =>
    show outerLoop (f + 1) twoNestedObjectText 0 [] = none
    exact outerLoop_step_none f twoNestedObjectText 0 [] (by decide) (by rfl)
      (twoNested_inner_none (f + 1))

theorem trunc_outer_stuck : ∀ (f : Nat) (acc : List Json),
    outerLoop f truncatedPairText 12 acc = none := by
  intro f acc
  cases f with
  | zero => rfl
  | succ g =>
    exact outerLoop_step_none g truncatedPairText 12 acc (by decide) (by rfl)
      (innerLoop_stuck truncatedPairText 12 12 (by rfl) (g + 1))

/-- C3 (code_bug): on one complete object followed by a truncated second
object the splitter does not report any `IncompleteFrame`-like condition — it
never terminates at all.  After consuming the first object the cursor sits on
the truncated `\x7b`, `find` returns -1, the probe substring is empty
(`data[12:0]`), and `start` never advances: an infinite loop in which even the
complete first object (recoverable on its own, second conjunct) is lost. -/
theorem parse_gspro_data_truncated_frame_loops :
    FrameSplitterDiverges truncatedPairText ∧
    parse_gspro_data 3 (pySlice truncatedPairText 0 12)
      = some (Except.ok [truncatedFirstJson]) := by
  constructor
  · intro fuel
    cases fuel with
    | zero => rfl
    | succ f =>
      have hinner : innerLoop (f + 1) truncatedPairText 0 0 = some (truncatedFirstJson, 12) := by
        rw [innerLoop_step_ok f truncatedPairText 0 0 truncatedFirstJson (by rfl)]
        rfl
      show outerLoop (f + 1) truncatedPairText 0 [] = none
      rw [outerLoop_step_some f truncatedPairText 0 [] truncatedFirstJson 12 (by decide)
        (by rfl) hinner]
      exact trunc_outer_stuck f ([] ++ [truncatedFirstJson])
  · rfl

/-- C2 (code_bug): `recv_data` decodes host replies through
`GSProMessage.create`, a method that does not exist (the class defines
`create_from_dict`), so the first read that actually delivers a JSON object
raises `AttributeError` instead of decoding/logging/returning `HostMessage`s;
and a zero-byte read (the peer-closed case) produces an empty message list,
appends nothing, returns Python `None`, and signals no `PeerClosed`. -/
theorem recv_data_undefined_create :
    recv_data 3 [] sampleMsg1Text = some RecvOutcome.attributeError ∧
    recv_data 1 [] [] = some (RecvOutcome.returnsNone []) :=
  ⟨by rfl, by rfl⟩

theorem popKey_fst (k : List Char) (d : List (List Char × Json)) :
    (popKey k d).1 = klookup k d := by
  induction d with
  | nil => rfl
  | cons p t ih =>
    obtain ⟨k', v⟩ := p
    by_cases h : k' = k <;> simp [popKey, klookup, h, ih]

theorem klookup_popKey_other (k k2 : List Char) (d : List (List Char × Json)) (hne : k ≠ k2) :
    klookup k (popKey k2 d).2 = klookup k d := by
  induction d with
  | nil => rfl
  | cons p t ih =>
    obtain ⟨k', v⟩ := p
    by_cases h : k' = k2
    · have h2 : ¬ k' = k := fun hh => hne (hh.symm.trans h)
      have h3 : ¬ k2 = k := fun hh => hne hh.symm
      simp [popKey, klookup, h, h2, h3]
    · by_cases h2 : k' = k <;> simp [popKey, klookup, h, h2, ih, hne]

theorem popKey_snd_filter (k : List Char) (d : List (List Char × Json))
    (hnd : (keysOf d).Nodup) :
    (popKey k d).2 = d.filter (fun p => p.1 ≠ k) := by
  induction d with
  | nil => rfl
  | cons p t ih =>
    obtain ⟨k', v⟩ := p
    simp only [keysOf, List.map_cons, List.nodup_cons] at hnd
    obtain ⟨hk', hnd'⟩ := hnd
    by_cases h : k' = k
    · have hpop : (popKey k ((k', v) :: t)).2 = t := by
        simp [popKey, h]
      have hfilter : ((k', v) :: t).filter (fun p => p.1 ≠ k) = t.filter (fun p => p.1 ≠ k) := by
        simp [List.filter_cons, h]
      have hself : t.filter (fun p => p.1 ≠ k) = t := by
        refine List.filter_eq_self.mpr ?_
        intro a ha
        have hmem : a.1 ∈ t.map Prod.fst := List.mem_map_of_mem Prod.fst ha
        have hne : a.1 ≠ k := by
          intro he
          refine hk' ?_
          rw [h, ← he]
          exact hmem
        simpa using hne
      rw [hpop, hfilter, hself]
    · have hpop : (popKey k ((k', v) :: t)).2 = (k', v) :: (popKey k t).2 := by
        simp [popKey, h]
      rw [hpop, ih hnd', List.filter_cons, if_pos (by simpa using h)]

theorem keysOf_popKey_sublist (k : List Char) (d : List (List Char × Json)) :
    List.Sublist (keysOf (popKey k d).2) (keysOf d) := by
  induction d with
  | nil => exact List.Sublist.refl _
  | cons p t ih =>
    obtain ⟨k', v⟩ := p
    by_cases h : k' = k
    · simp only [popKey, if_pos h, keysOf, List.map_cons]
      exact List.sublist_cons_self _ _
    · simp only [popKey, if_neg h, keysOf, List.map_cons]
      exact List.Sublist.cons₂ _ ih

theorem keysOf_popKey_nodup (k : List Char) (d : List (List Char × Json))
    (hnd : (keysOf d).Nodup) :
    (keysOf (popKey k d).2).Nodup :=
  List.Nodup.sublist (keysOf_popKey_sublist k d) hnd

theorem mem_popKey_snd (k : List Char) (d : List (List Char × Json))
    (hnd : (keysOf d).Nodup) (p : List Char × Json) :
    p ∈ (popKey k d).2 ↔ p ∈ d ∧ p.1 ≠ k := by
  rw [popKey_snd_filter k d hnd]
  simp [List.mem_filter]

/-- C4 (amended): decoding a host reply never fails because of unknown extra
fields; the known fields `Code`, `Message`, `Player` are extracted and
removed; `Message`/`Player` default to unset (`None`) when absent; every
remaining pair is preserved in the catch-all — except that an input pair
keyed `"Xtra"` collides with the catch-all field itself and is dropped, and
the required field `Code` must be present: when it is missing the decode
fails with a `TypeError` rather than defaulting. -/
theorem create_from_dict_spec (dct : List (List Char × Json))
    (hnd : (keysOf dct).Nodup) :
    (klookup codeKey dct = none →
      create_from_dict dct = Except.error DecodeError.typeError) ∧
    (∀ cv, klookup codeKey dct = some cv →
      ∃ m, create_from_dict dct = Except.ok m ∧
        m.Code = cv ∧
        m.Message = (klookup messageKey dct).getD Json.null ∧
        m.Player = (klookup playerKey dct).getD Json.null ∧
        (∀ p, p ∈ m.Xtra ↔ p ∈ dct ∧ p.1 ≠ codeKey ∧ p.1 ≠ messageKey ∧
          p.1 ≠ playerKey ∧ p.1 ≠ xtraKey)) := by
  have hnd1 : (keysOf (popKey codeKey dct).2).Nodup := keysOf_popKey_nodup _ _ hnd
  have hnd2 : (keysOf (popKey messageKey (popKey codeKey dct).2).2).Nodup :=
    keysOf_popKey_nodup _ _ hnd1
  have hnd3 : (keysOf (popKey playerKey (popKey messageKey (popKey codeKey dct).2).2).2).Nodup :=
    keysOf_popKey_nodup _ _ hnd2
  constructor
  · intro hnone
    simp only [create_from_dict, popKey_fst, hnone]
  · intro cv hcv
    have hok : create_from_dict dct = Except.ok
        { Code := cv,
          Message := (klookup messageKey (popKey codeKey dct).2).getD Json.null,
          Player := (klookup playerKey (popKey messageKey (popKey codeKey dct).2).2).getD Json.null,
          Xtra := (popKey xtraKey (popKey playerKey (popKey messageKey (popKey codeKey dct).2).2).2).2 } := by
      simp only [create_from_dict, popKey_fst, hcv]
    refine ⟨_, hok, rfl, ?_, ?_, ?_⟩
    · show (klookup messageKey (popKey codeKey dct).2).getD Json.null
        = (klookup messageKey dct).getD Json.null
      rw [klookup_popKey_other messageKey codeKey dct (by decide)]
    · show (klookup playerKey (popKey messageKey (popKey codeKey dct).2).2).getD Json.null
        = (klookup playerKey dct).getD Json.null
      rw [klookup_popKey_other playerKey messageKey _ (by decide),
        klookup_popKey_other playerKey codeKey dct (by decide)]
    · intro p
      show p ∈ (popKey xtraKey (popKey playerKey (popKey messageKey (popKey codeKey dct).2).2).2).2
        ↔ _
      rw [mem_popKey_snd _ _ hnd3, mem_popKey_snd _ _ hnd2, mem_popKey_snd _ _ hnd1,
        mem_popKey_snd _ _ hnd]
      tauto

/-- C4 counterexample: the claim as stated fails twice on the code.  A dict
without `Code` does not decode with `Code` unset — the constructor call
raises `TypeError`; and a dict containing the unknown-to-the-wire key
`"Xtra"` has that pair dropped (the popped value is overwritten by the
remainder assignment), not preserved in the catch-all mapping. -/
theorem create_from_dict_counterexample :
    create_from_dict [(messageKey, Json.str (("hi").data))]
      = Except.error DecodeError.typeError ∧
    create_from_dict [(codeKey, Json.num (("1").data)), (xtraKey, Json.num (("5").data))]
      = Except.ok { Code := Json.num (("1").data), Message := Json.null,
                    Player := Json.null, Xtra := [] } :=
  ⟨by rfl, by rfl⟩

/-- Witness for C4: the amended theorem applied to a concrete reply dict with
an unknown extra key. -/
theorem create_from_dict_spec_witness :
    ∃ m, create_from_dict [(codeKey, Json.num (("7").data)), ((("Zebra").data), Json.bool true)]
        = Except.ok m ∧
      m.Code = Json.num (("7").data) ∧
      m.Message = (klookup messageKey
        [(codeKey, Json.num (("7").data)), ((("Zebra").data), Json.bool true)]).getD Json.null ∧
      m.Player = (klookup playerKey
        [(codeKey, Json.num (("7").data)), ((("Zebra").data), Json.bool true)]).getD Json.null ∧
      (∀ p, p ∈ m.Xtra ↔
        p ∈ [(codeKey, Json.num (("7").data)), ((("Zebra").data), Json.bool true)] ∧
        p.1 ≠ codeKey ∧ p.1 ≠ messageKey ∧ p.1 ≠ playerKey ∧ p.1 ≠ xtraKey) :=
  (create_from_dict_spec
    [(codeKey, Json.num (("7").data)), ((("Zebra").data), Json.bool true)] (by decide)).2
    (Json.num (("7").data)) (by rfl)

theorem constructShots_counter_le : ∀ (args : List ShotArgs) (c : Nat),
    ∀ s ∈ constructShots c args, (c : Int) ≤ s.ShotNumber := by
  intro args
  induction args with
  | nil =>
    intro c s hs
    simp [constructShots] at hs
  | cons a t ih =>
    intro c s hs
    rw [constructShots] at hs
    rcases List.mem_cons.mp hs with h | h
    · subst h
      simp [mkShot]
    · have h2 := ih (mkShot c a).2 s h
      have he : (mkShot c a).2 = c + 1 := rfl
      rw [he] at h2
      have h3 : ((c : Int)) ≤ (((c + 1 : Nat)) : Int) := by
        push_cast
        omega
      exact le_trans h3 h2

/-- C5 (confirmed): shot sequence numbers come from the process-wide counter
at construction time (any caller-supplied `ShotNumber` argument is discarded
by `__post_init__`), so across any sequence of `Shot` constructions — from
any counter state, with arbitrary constructor arguments, independent of any
session — the assigned numbers are strictly increasing in construction order
and pairwise distinct. -/
theorem shot_numbers_strictly_increase (c : Nat) (args : List ShotArgs) :
    List.Pairwise (fun s t : ShotT => s.ShotNumber < t.ShotNumber) (constructShots c args) ∧
    List.Pairwise (fun s t : ShotT => s.ShotNumber ≠ t.ShotNumber) (constructShots c args) := by
  have hlt : ∀ (args : List ShotArgs) (c : Nat),
      List.Pairwise (fun s t : ShotT => s.ShotNumber < t.ShotNumber) (constructShots c args) := by
    intro args
    induction args with
    | nil =>
      intro c
      simp [constructShots]
    | cons a t ih =>
      intro c
      rw [constructShots]
      refine List.pairwise_cons.mpr ⟨?_, ih (mkShot c a).2⟩
      intro s hs
      have h2 := constructShots_counter_le t (mkShot c a).2 s hs
      have he : (mkShot c a).2 = c + 1 := rfl
      rw [he] at h2
      have h1 : (mkShot c a).1.ShotNumber = (c : Int) := rfl
      rw [h1]
      push_cast at h2
      omega
  exact ⟨hlt args c, (hlt args c).imp (fun h => ne_of_lt h)⟩

/-- Witness for C5: two consecutive constructions from the initial counter,
the second passing an explicit (ignored) `ShotNumber`. -/
theorem shot_numbers_strictly_increase_witness :
    List.Pairwise (fun s t : ShotT => s.ShotNumber < t.ShotNumber)
      (constructShots next_shot_number_init [{}, { ShotNumber := -7 }]) ∧
    List.Pairwise (fun s t : ShotT => s.ShotNumber ≠ t.ShotNumber)
      (constructShots next_shot_number_init [{}, { ShotNumber := -7 }]) :=
  shot_numbers_strictly_increase next_shot_number_init [{}, { ShotNumber := -7 }]

/-- C6 (confirmed): `asdict_ignore_none` produces, for every
`ShotDataOptions`, `BallData` and `Shot` value, a dict whose key set is
exactly the fields whose value is not `None`, recursively (unset optional
fields are omitted entirely, never emitted as null); in particular a default
`Shot` with only `BallData` set serializes with no `IsHeartbeat`,
`LaunchMonitorIsReady` or `LaunchMonitorBallDetected` keys and with
`ContainsBallData:true, ContainsClubData:false`. -/
theorem asdict_ignore_none_key_sets :
    (∀ o : ShotDataOptionsT,
      keysOf (asdict_ignore_none_ShotDataOptions o)
        = [cbdKey, ccdKey]
          ++ (if o.LaunchMonitorIsReady.isSome then [lmirKey] else [])
          ++ (if o.LaunchMonitorBallDetected.isSome then [lmbdKey] else [])
          ++ (if o.IsHeartbeat.isSome then [ihbKey] else [])) ∧
    (∀ b : BallDataT,
      keysOf (asdict_ignore_none_BallData b)
        = [("Speed").data, ("SpinAxis").data, ("TotalSpin").data, ("HLA").data, ("VLA").data]) ∧
    (∀ s : ShotT,
      keysOf (asdict_ignore_none_Shot s)
        = [deviceKey, unitsKey, shotNumberKey, apiKey]
          ++ (if s.BallData.isSome then [ballKey] else []) ++ [sdoKey]) ∧
    asdict_ignore_none_Shot (mkShot 42 { BallData := some sampleBall }).1
      = [(deviceKey, Json.str (("GSPro LM 1.1").data)),
         (unitsKey, Json.str (("Yards").data)),
         (shotNumberKey, Json.num (("42").data)),
         (apiKey, Json.str (("1").data)),
         (ballKey, Json.obj (asdict_ignore_none_BallData sampleBall)),
         (sdoKey, Json.obj [(cbdKey, Json.bool true), (ccdKey, Json.bool false)])] := by
  refine ⟨?_, ?_, ?_, by rfl⟩
  · intro o
    cases hA : o.LaunchMonitorIsReady <;> cases hB : o.LaunchMonitorBallDetected <;>
      cases hC : o.IsHeartbeat <;>
        simp [asdict_ignore_none_ShotDataOptions, optEntry, keysOf, hA, hB, hC]
  · intro b
    rfl
  · intro s
    cases hB : s.BallData <;> simp [asdict_ignore_none_Shot, keysOf, hB]

/-- Witness for C6: the key-set law evaluated on an options value with one
tri-state flag explicitly set to `False` (still serialized, unlike `None`). -/
theorem asdict_ignore_none_key_sets_witness :
    keysOf (asdict_ignore_none_ShotDataOptions ({ IsHeartbeat := some false } : ShotDataOptionsT))
      = [cbdKey, ccdKey]
        ++ (if ({ IsHeartbeat := some false } : ShotDataOptionsT).LaunchMonitorIsReady.isSome
            then [lmirKey] else [])
        ++ (if ({ IsHeartbeat := some false } : ShotDataOptionsT).LaunchMonitorBallDetected.isSome
            then [lmbdKey] else [])
        ++ (if ({ IsHeartbeat := some false } : ShotDataOptionsT).IsHeartbeat.isSome
            then [ihbKey] else []) :=
  asdict_ignore_none_key_sets.1 { IsHeartbeat := some false }

/-- C7 (confirmed): serializing `Shot.heartbeat()` (whatever the counter
state at construction) yields a dict with no `BallData` key whose
`ShotDataOptions` sub-object is exactly
`\x7bContainsBallData:false, ContainsClubData:false, IsHeartbeat:true\x7d`. -/
theorem heartbeat_serialization (c : Nat) :
    ballKey ∉ keysOf (asdict_ignore_none_Shot (Shot_heartbeat c).1) ∧
    klookup sdoKey (asdict_ignore_none_Shot (Shot_heartbeat c).1)
      = some (Json.obj [(cbdKey, Json.bool false), (ccdKey, Json.bool false),
                        (ihbKey, Json.bool true)]) := by
  constructor
  · have hkeys : keysOf (asdict_ignore_none_Shot (Shot_heartbeat c).1)
        = [deviceKey, unitsKey, shotNumberKey, apiKey, sdoKey] := rfl
    rw [hkeys]
    decide
  · rfl

/-- Witness for C7: the heartbeat built at the initial counter value. -/
theorem heartbeat_serialization_witness :
    ballKey ∉ keysOf (asdict_ignore_none_Shot (Shot_heartbeat 42).1) ∧
    klookup sdoKey (asdict_ignore_none_Shot (Shot_heartbeat 42).1)
      = some (Json.obj [(cbdKey, Json.bool false), (ccdKey, Json.bool false),
                        (ihbKey, Json.bool true)]) :=
  heartbeat_serialization 42

/-- C8 (confirmed): whenever the first unconsumed byte — at the start of the
buffer, or at the cursor after any number of completed objects — is not a
`\x7b`, the splitter's assert fails (the `InvalidFrame` error) instead of
returning a result. -/
theorem invalid_frame_on_non_brace :
    (∀ (fuel : Nat) (data : List Char) (lp : Nat) (acc : List Json),
      lp < data.length → data.getD lp ' ' ≠ lbrace →
      outerLoop (fuel + 1) data lp acc = some (Except.error FrameError.invalidFrame)) ∧
    (∀ (fuel : Nat) (data : List Char),
      0 < data.length → data.getD 0 ' ' ≠ lbrace →
      parse_gspro_data (fuel + 1) data = some (Except.error FrameError.invalidFrame)) := by
  refine ⟨?_, ?_⟩
  · intro fuel data lp acc h1 h2
    exact outerLoop_step_invalid fuel data lp acc h1 h2
  · intro fuel data h1 h2
    exact outerLoop_step_invalid fuel data 0 [] h1 h2

/-- Witness for C8: a buffer starting with a letter. -/
theorem invalid_frame_on_non_brace_witness :
    parse_gspro_data 1 (("abc").data) = some (Except.error FrameError.invalidFrame) :=
  invalid_frame_on_non_brace.2 0 (("abc").data) (by decide) (by decide)

/-- C9 (confirmed): `send_shot` serializes the shot, appends it to the
session log, performs the single write, and raises the short-write
`ValueError` exactly when the transport accepted fewer bytes than the full
payload (no retry of partial writes — the outcome is decided by that one
acceptance count). -/
theorem send_shot_spec (log : List SessionEntry) (golfshot : ShotT) (nbytes_sent : Nat)
    (h : nbytes_sent ≤ (as_msg golfshot).length) :
    (send_shot log golfshot nbytes_sent).1 = log ++ [SessionEntry.sentShot golfshot] ∧
    ((send_shot log golfshot nbytes_sent).2 = SendOutcome.shortWriteError ↔
      nbytes_sent < (as_msg golfshot).length) := by
  refine ⟨rfl, ?_⟩
  rcases Nat.lt_or_ge nbytes_sent (as_msg golfshot).length with hlt | hge
  · have hne : (as_msg golfshot).length ≠ nbytes_sent := by omega
    simp [send_shot, hne, hlt]
  · have heq : (as_msg golfshot).length = nbytes_sent := by omega
    simp [send_shot, heq]

/-- Witness for C9: a transport that accepts nothing at all. -/
theorem send_shot_spec_witness :
    (send_shot [] heartbeatShot42 0).1 = [] ++ [SessionEntry.sentShot heartbeatShot42] ∧
    ((send_shot [] heartbeatShot42 0).2 = SendOutcome.shortWriteError ↔
      0 < (as_msg heartbeatShot42).length) :=
  send_shot_spec [] heartbeatShot42 0 (Nat.zero_le _)

/-- C10 (confirmed): the log append happens before the socket write, so even
when the write is short and the `ValueError` is raised, the session log has
already been extended with the unsent shot — it is not left unchanged on
error. -/
theorem send_shot_appends_even_on_error (log : List SessionEntry) (golfshot : ShotT)
    (nbytes_sent : Nat) (h : nbytes_sent ≠ (as_msg golfshot).length) :
    (send_shot log golfshot nbytes_sent).2 = SendOutcome.shortWriteError ∧
    (send_shot log golfshot nbytes_sent).1 = log ++ [SessionEntry.sentShot golfshot] := by
  refine ⟨?_, rfl⟩
  have h2 : (as_msg golfshot).length ≠ nbytes_sent := fun hh => h hh.symm
  simp [send_shot, h2]

/-- Witness for C10: the failing zero-byte write still extends the log. -/
theorem send_shot_appends_even_on_error_witness :
    (send_shot [] heartbeatShot42 0).2 = SendOutcome.shortWriteError ∧
    (send_shot [] heartbeatShot42 0).1 = [] ++ [SessionEntry.sentShot heartbeatShot42] :=
  send_shot_appends_even_on_error [] heartbeatShot42 0 (by decide)
